import Mathlib

/-!
Shallow embedding of the project/task lifecycle workflow engine of the
`proyectos` Django app (`proyectos/views.py`, `proyectos/models.py`,
`proyectos/forms.py`).

Modelling conventions:
* `Decimal(max_digits, 2)` money amounts are integers counting cents.
* Django model state fields are the literal strings the source stores
  (`"todo"`, `"doing"`, `"planificado"`, `"finalizado"`, ...).
* Each view's POST handler becomes a pure function returning
  `Except FalloOp σ`: `.ok` carries the state as committed at the end of
  the handler, `.error` is any of the rejection paths (form re-render
  with errors, `messages.error` + redirect, HTTP 400/403/404) — on all of
  those paths the source performs no `save()`/`create()` before bailing
  out, so the pre-state is untouched.  The one exception is
  `proyecto_reabrir`, whose un-transactioned per-task save loop can die
  midway leaving a partially updated database: it returns a dedicated
  `SalidaReabrir` outcome that carries the state as left in storage.
* Notifications (`Notificacion.objects.create`) are fire-and-forget side
  output and are not part of the modelled state.
* `request.user` is modelled as `Usuario` carrying the two permission
  bits the views consult: `has_perm("proyectos.can_manage_proyectos")`
  and `has_perm("proyectos.can_manage_economia")`.
-/

namespace D3S

/-- A user: primary key plus the permission bits checked by the views. -/
structure Usuario where
  id : Nat
  canManageProyectos : Bool
  canManageEconomia : Bool
  deriving DecidableEq, Repr

/-- A task (model `Tarea`): `estado` ranges over `"todo"`, `"doing"`,
`"review"`, `"done"`; `asignados` is the many-to-many assignee set (user
ids) and `asignado_a` the legacy single-assignee foreign key. -/
structure Tarea where
  id : Nat
  titulo : String
  estado : String
  asignados : List Nat
  asignado_a : Option Nat
  vence_el : Option String
  deriving DecidableEq, Repr

/-- A project (model `Proyecto`): `presupuesto_total` is the nullable
budget in cents, `facturacion_incompleta` the incomplete-invoicing flag. -/
structure Proyecto where
  nombre : String
  estado : String
  responsable : Option Nat
  miembros : List Nat
  presupuesto_total : Option Int
  facturacion_incompleta : Bool
  deriving DecidableEq, Repr

/-- An audit-trail event (model `HistorialProyecto`). -/
structure HistorialEvento where
  tipo : String
  descripcion : String
  actor : Nat
  deriving DecidableEq, Repr

/-- An invoice (model `FacturaProyecto`); only the amount matters to the
closure reconciliation, which ignores the invoice state. -/
structure Factura where
  monto : Int
  deriving DecidableEq, Repr

/-- A work-hour entry (model `HoraTrabajo`): `estado` ranges over
`"cargada"`, `"aprobada"`, `"rechazada"`; `horas` is the duration in
hundredths of an hour; `aprobada_en` a timestamp. -/
structure HoraTrabajo where
  usuario : Nat
  estado : String
  horas : Option Int
  aprobada_por : Option Nat
  aprobada_en : Option Nat
  deriving DecidableEq, Repr

/-- One project's slice of the database: the project row, its tasks, its
invoices and its audit trail (`historial`, append-at-end; the
newest-first presentation order is read-time only). -/
structure Sistema where
  proyecto : Proyecto
  tareas : List Tarea
  facturas : List Factura
  historial : List HistorialEvento
  deriving DecidableEq, Repr

/-- Rejection outcomes of a view, following the spec's taxonomy (§7):
`validationError` = form invalid / missing required data,
`permissionError` = HTTP 403, `conflictError` = precondition on the
current state not met, `notFoundError` = HTTP 404,
`badRequest` = HTTP 400 for a malformed value. -/
inductive FalloOp where
  | validationError (detalle : String)
  | permissionError (detalle : String)
  | conflictError (detalle : String)
  | notFoundError
  | badRequest (detalle : String)
  deriving DecidableEq, Repr

/-- Keys of `Tarea.ESTADOS`. -/
def tareaEstados : List String := ["todo", "doing", "review", "done"]

/-- Keys of `Proyecto.ESTADOS`. -/
def proyectoEstados : List String :=
  ["planificado", "presupuestado", "aprobado", "en_progreso",
   "en_pausa", "finalizado", "facturacion", "archivado"]

/-- Gate `_qs_permitidos` (views.py:73): a manager sees every project, anyone
else only projects where they are the responsible owner or a member;
`get_object_or_404` on that queryset raises 404 otherwise. -/
def qs_permitido (u : Usuario) (p : Proyecto) : Bool :=
  u.canManageProyectos || p.responsable == some u.id || p.miembros.contains u.id

/-- The `asignado` check of `tarea_cambiar_estado` (views.py:842-846):
member of the `asignados` M2M set, or the legacy `asignado_a` user. -/
def asignado_de (uid : Nat) (t : Tarea) : Bool :=
  t.asignados.contains uid || t.asignado_a == some uid

/-- A pending task: `estado__in=["todo", "doing", "review"]`
(views.py:538). -/
def pendiente (t : Tarea) : Bool :=
  ["todo", "doing", "review"].contains t.estado

/-- The audit description
`f"Cambio de estado: '{titulo}' {antes} → {despues}."` (views.py). -/
def descCambioEstado (titulo antes despues : String) : String :=
  "Cambio de estado: \x27" ++ titulo ++ "\x27 " ++ antes ++ " → " ++ despues ++ "."

/-- View `tomar_tarea` (views.py:604-623): claiming a multi-assignee task.
Requires the actor in the `asignados` M2M set (else an error message and
no change); if the actor is already the sole assignee it is a no-op
success; otherwise the set collapses to the actor alone. -/
def tomar_tarea (u : Usuario) (t : Tarea) : Except FalloOp Tarea :=
  if ¬ t.asignados.contains u.id then
    Except.error (FalloOp.conflictError "No estás asignado a esta tarea.")
  else if t.asignados.length ≤ 1 then
    Except.ok t
  else
    Except.ok { t with asignados := [u.id] }

/-- View `tarea_cambiar_estado` (views.py:833-946) acting on the task at
index `i` of `s.tareas`. `action` is `POST["action"]` after the view's
`.strip().lower()` normalisation; `estado_post` is `POST["estado"]`,
taken as `""` when the field is absent (for the view's
`nuevo in dict(Tarea.ESTADOS)` test an absent value and an invalid
string behave identically).
* quick actions `start` / `finish`: require the actor assigned
  (403 otherwise); `start` requires `estado = "todo"`, then sets
  `estado := "doing"` and collapses `asignados` to the actor; `finish`
  requires `estado = "doing"`, then sets `estado := "review"`; each
  success appends one `estado_tarea` history event;
* otherwise the direct change: any actor passing the `_qs_permitidos`
  gate may set any valid state, with one `estado_tarea` history event;
  an invalid or absent `estado` value falls through to the redirect
  with no change and no event. -/
def tarea_cambiar_estado (u : Usuario) (action : String)
    (estado_post : String) (s : Sistema) (i : Nat) :
    Except FalloOp Sistema :=
  match s.tareas[i]? with
  | none => Except.error FalloOp.notFoundError
  | some tarea =>
    if ¬ qs_permitido u s.proyecto then Except.error FalloOp.notFoundError
    else if action = "start" ∨ action = "finish" then
      if ¬ asignado_de u.id tarea then
        Except.error (FalloOp.permissionError "No estás asignado a esta tarea.")
      else if action = "start" then
        if tarea.estado ≠ "todo" then
          Except.error (FalloOp.conflictError
            "Solo se puede empezar si está \x27Por hacer\x27.")
        else
          Except.ok { s with
            tareas := s.tareas.set i { tarea with estado := "doing", asignados := [u.id] },
            historial := s.historial ++
              [⟨"estado_tarea", descCambioEstado tarea.titulo tarea.estado "doing", u.id⟩] }
      else
        if tarea.estado ≠ "doing" then
          Except.error (FalloOp.conflictError
            "Solo se puede terminar si está \x27En curso\x27.")
        else
          Except.ok { s with
            tareas := s.tareas.set i { tarea with estado := "review" },
            historial := s.historial ++
              [⟨"estado_tarea", descCambioEstado tarea.titulo tarea.estado "review", u.id⟩] }
    else
      if tareaEstados.contains estado_post then
        Except.ok { s with
          tareas := s.tareas.set i { tarea with estado := estado_post },
          historial := s.historial ++
            [⟨"estado_tarea",
              descCambioEstado tarea.titulo tarea.estado estado_post, u.id⟩] }
      else Except.ok s

/-- View `proyecto_cambiar_estado` (views.py:306-326): the JSON endpoint that
sets a project's state directly.  It validates the value against
`Proyecto.ESTADOS` (400 otherwise), saves, and returns — it creates no
`HistorialProyecto` row and performs no permission check beyond login.
`estado_post` is the posted value after the view's `.strip()`. -/
def proyecto_cambiar_estado (estado_post : String) (s : Sistema) :
    Except FalloOp Sistema :=
  if proyectoEstados.contains estado_post then
    Except.ok { s with proyecto := { s.proyecto with estado := estado_post } }
  else
    Except.error (FalloOp.badRequest "Estado inválido.")

/-- Quantity `facturado` in `proyecto_cerrar` (views.py:498): the sum of the
amounts of all the project's invoices, with no filter on their state
(`aggregate(s=Sum("monto"))["s"] or 0`). -/
def facturadoTotal (s : Sistema) : Int :=
  (s.facturas.map Factura.monto).sum

/-- View `proyecto_cerrar` (views.py:496-532). `esPost` is whether the
request is a POST, `motivo` the posted `CierreIncompletoForm` reason
(the GET rendering of the form is the same no-change outcome as an
invalid POST).  Python truthiness: the incomplete branch is taken only
when `presupuesto_total or 0` is non-zero and the invoiced sum is
strictly below it.  `motivo` is the form's cleaned (stripped) value;
the field is required, so the form is valid iff `motivo ≠ ""`. -/
def proyecto_cerrar (u : Usuario) (esPost : Bool) (motivo : String)
    (s : Sistema) : Except FalloOp Sistema :=
  if ¬ qs_permitido u s.proyecto then Except.error FalloOp.notFoundError
  else if s.proyecto.presupuesto_total.getD 0 ≠ 0 ∧
      facturadoTotal s < s.proyecto.presupuesto_total.getD 0 then
    if esPost ∧ motivo ≠ "" then
      Except.ok { s with
        proyecto := { s.proyecto with facturacion_incompleta := true, estado := "finalizado" },
        historial := s.historial ++
          [⟨"cierre_incompleto",
            "Cierre con facturación incompleta. Motivo: " ++ motivo, u.id⟩] }
    else
      Except.error (FalloOp.validationError "Motivo del cierre incompleto requerido.")
  else
    Except.ok { s with
      proyecto := { s.proyecto with estado := "finalizado" },
      historial := s.historial ++
        [⟨"cierre", "Proyecto marcado como finalizado.", u.id⟩] }

/-- Value of an ASCII digit character, `none` otherwise (the `\d` of
Django's `date_re`, restricted to ASCII digits). -/
def digito (c : Char) : Option Nat :=
  if '0' ≤ c ∧ c ≤ '9' then some (c.toNat - 48) else none

/-- Numeric value of an all-digit character group (`none` on any
non-digit). -/
def valorDigitos (acc : Nat) : List Char → Option Nat
  | [] => some acc
  | c :: rest =>
    match digito c with
    | some d => valorDigitos (acc * 10 + d) rest
    | none => none

/-- Splits a character list at `-` separators, the groups of Django's
`date_re` regex. -/
def separaGuiones : List Char → List (List Char)
  | [] => [[]]
  | c :: rest =>
    match separaGuiones rest with
    | [] => [[]]
    | g :: gs => if c = '-' then [] :: g :: gs else (c :: g) :: gs

/-- Length of a month in the proleptic Gregorian calendar used by
`datetime.date`. -/
def diasEnMes (anio mes : Nat) : Nat :=
  if mes = 2 then
    if anio % 4 = 0 ∧ (anio % 100 ≠ 0 ∨ anio % 400 = 0) then 29 else 28
  else if mes = 4 ∨ mes = 6 ∨ mes = 9 ∨ mes = 11 then 30
  else 31

/-- Django's date parsing as applied when a `DateField` attribute holds
a string at `save()` time (`django.utils.dateparse.parse_date`): the
`date_re` shape `\d\x7b4\x7d-\d\x7b1,2\x7d-\d\x7b1,2\x7d` naming a
valid `datetime.date` (year at least 1, month 1-12, day within the
month).  `none` means `DateField.to_python` raises `ValidationError`
for this (non-blank) string. -/
def parseFecha (s : String) : Option (Nat × Nat × Nat) :=
  match separaGuiones s.data with
  | [ys, ms, ds] =>
    if ys.length = 4 ∧ (ms.length = 1 ∨ ms.length = 2) ∧
        (ds.length = 1 ∨ ds.length = 2) then
      match valorDigitos 0 ys, valorDigitos 0 ms, valorDigitos 0 ds with
      | some y, some m, some d =>
        if 1 ≤ y ∧ 1 ≤ m ∧ m ≤ 12 ∧ 1 ≤ d ∧ d ≤ diasEnMes y m then
          some (y, m, d)
        else none
      | _, _, _ => none
    else none
  | _ => none

/-- The per-task save loop of the reopen success branch
(views.py:554-556), with no surrounding transaction; `s.tareas` lists
the tasks in the order the `pendientes` queryset iterates them.  A
pending task whose date parses gets its new due date committed; the
first pending task whose (non-blank) date does not parse makes
`t.save()` raise, aborting the loop — it and every later task stay
untouched, the earlier saves remain committed.  Returns the table as
left in the database, paired with whether the loop ran to
completion. -/
def guardaVencimientos (fechas : Nat → String) : List Tarea → List Tarea × Bool
  | [] => ([], true)
  | t :: ts =>
    if pendiente t then
      if (parseFecha (fechas t.id)).isSome then
        ({ t with vence_el := some (fechas t.id) } :: (guardaVencimientos fechas ts).1,
         (guardaVencimientos fechas ts).2)
      else (t :: ts, false)
    else
      (t :: (guardaVencimientos fechas ts).1, (guardaVencimientos fechas ts).2)

/-- Outcome of `proyecto_reabrir`.  Unlike the other modelled views,
its save loop commits per task with no transaction, so an exception can
leave a *partially updated* database behind; every outcome therefore
carries the state as left in storage: `exito` the fully reopened state,
`rechazo` a validation/404 rejection with the untouched pre-state, and
`excepcion` the unhandled mid-loop `ValidationError` (HTTP 500) with
whatever the aborted loop had already committed. -/
inductive SalidaReabrir where
  | exito (s : Sistema)
  | rechazo (e : FalloOp) (s : Sistema)
  | excepcion (s : Sistema)
  deriving DecidableEq, Repr

/-- View `proyecto_reabrir` (views.py:536-587), POST path.  `motivo` is
the `ReaperturaForm` reason as cleaned by the form (required and
stripped — the form is valid iff it is non-blank); `fechas` maps a task
id to the posted `vence_el_<id>` field after the view's `.strip()`
(`""` when the field is absent or blank).  The view first collects all
pending tasks lacking a non-blank date; if any, it only flashes an
error (nothing is saved).  Otherwise it runs the un-transactioned
per-task save loop `guardaVencimientos`: if some non-blank date is
unparseable the request dies mid-loop with the earlier due-date saves
already committed and neither the project flip nor the event performed;
only if every date parses does it flip the project to `"planificado"`,
clear `facturacion_incompleta`, and append one `reapertura` event. -/
def proyecto_reabrir (u : Usuario) (motivo : String) (fechas : Nat → String)
    (s : Sistema) : SalidaReabrir :=
  if ¬ qs_permitido u s.proyecto then SalidaReabrir.rechazo FalloOp.notFoundError s
  else if motivo = "" then
    SalidaReabrir.rechazo (FalloOp.validationError "Motivo de reapertura requerido.") s
  else if (s.tareas.filter pendiente).any (fun t => fechas t.id == "") then
    SalidaReabrir.rechazo (FalloOp.validationError
      "Debés cargar fecha para todas las tareas pendientes.") s
  else if (guardaVencimientos fechas s.tareas).2 then
    SalidaReabrir.exito { s with
      tareas := (guardaVencimientos fechas s.tareas).1,
      proyecto := { s.proyecto with estado := "planificado", facturacion_incompleta := false },
      historial := s.historial ++
        [⟨"reapertura",
          "Proyecto reabierto. Motivo: " ++ motivo ++
            ". Tareas reabiertas: " ++ toString (s.tareas.filter pendiente).length ++ ".",
          u.id⟩] }
  else
    SalidaReabrir.excepcion { s with tareas := (guardaVencimientos fechas s.tareas).1 }

/-- View `tarea_eliminar` (views.py:949-961): hard-deletes the task at index
`i` and appends one `estado_tarea` history event for the project. -/
def tarea_eliminar (u : Usuario) (s : Sistema) (i : Nat) :
    Except FalloOp Sistema :=
  match s.tareas[i]? with
  | none => Except.error FalloOp.notFoundError
  | some tarea =>
    if ¬ qs_permitido u s.proyecto then Except.error FalloOp.notFoundError
    else
      Except.ok { s with
        tareas := s.tareas.eraseIdx i,
        historial := s.historial ++
          [⟨"estado_tarea", "Tarea eliminada: \x27" ++ tarea.titulo ++ "\x27.", u.id⟩] }

/-- View `horas_aprobar` (views.py:1274-1283): guarded only by the
`can_manage_economia` permission (403 otherwise); unconditionally sets
`estado := "aprobada"`, the approving actor and the decision timestamp,
with no check of the entry's current state. -/
def horas_aprobar (u : Usuario) (ahora : Nat) (h : HoraTrabajo) :
    Except FalloOp HoraTrabajo :=
  if ¬ u.canManageEconomia then
    Except.error (FalloOp.permissionError "Permiso can_manage_economia requerido.")
  else
    Except.ok { h with estado := "aprobada",
                       aprobada_por := some u.id, aprobada_en := some ahora }

/-- View `horas_rechazar` (views.py:1286-1295): same shape as `horas_aprobar`
with `estado := "rechazada"`. -/
def horas_rechazar (u : Usuario) (ahora : Nat) (h : HoraTrabajo) :
    Except FalloOp HoraTrabajo :=
  if ¬ u.canManageEconomia then
    Except.error (FalloOp.permissionError "Permiso can_manage_economia requerido.")
  else
    Except.ok { h with estado := "rechazada",
                       aprobada_por := some u.id, aprobada_en := some ahora }

/-- Duration `round(delta_h, 2)` of `horas_nueva`, in hundredths of an hour, for
a whole-minute interval: `round(minutos / 60 * 100) = round(5m / 3)`.
Python rounds half to even, but `5m/3` is half an integer only when
`10m = 6k + 3`, impossible for integer `m`, so Mathlib's `round`
(half away from zero upward) computes the same value. -/
def horasRedondeadas (minutos : Nat) : Int :=
  round ((5 * (minutos : ℚ)) / 3)

/-- View `horas_nueva` (views.py:1039-1117), POST path.  The
`HoraTrabajoForm` requires both `inicio` and `fin` (`%H:%M`, modelled
as minutes since midnight; `none` = missing or unparseable) and its
`clean` rejects `inicio >= fin`; the view then derives
`horas = round((fin - inicio) / 3600, 2)` and saves the entry in state
`"cargada"`.  `horas_post` is a directly posted duration: it is not
among the form's fields and is ignored by the view. -/
def horas_nueva (usuarioId : Nat) (inicio fin : Option Nat)
    (horas_post : Option Int) : Except FalloOp HoraTrabajo :=
  match inicio, fin with
  | some ini, some f =>
    if f ≤ ini then
      Except.error (FalloOp.validationError
        "La hora de inicio debe ser anterior a la de fin.")
    else
      Except.ok { usuario := usuarioId, estado := "cargada",
                  horas := some (horasRedondeadas (f - ini)),
                  aprobada_por := none, aprobada_en := none }
  | _, _ =>
    Except.error (FalloOp.validationError "Inicio y fin son obligatorios.")

/-- Holds (`true`) exactly on the rejection paths of an operation; on those
paths the handler returns without having saved anything, so the caller
still holds the untouched pre-state. -/
def esError {ε α : Type} (r : Except ε α) : Bool :=
  match r with
  | Except.error _ => true
  | Except.ok _ => false

/-! ### Concrete sample data for witnesses and counterexamples -/

/-- A user holding `can_manage_proyectos`. -/
def uGerente : Usuario := ⟨1, true, false⟩

/-- A plain developer: no permissions. -/
def uDev : Usuario := ⟨2, false, false⟩

/-- A plain project member: no permissions. -/
def uMiembro : Usuario := ⟨3, false, false⟩

/-- A user holding `can_manage_economia`. -/
def uEco : Usuario := ⟨5, false, true⟩

/-- A pending task assigned to user 2. -/
def tPendiente : Tarea := ⟨1, "T1", "todo", [2], none, none⟩

/-- A finished project with one pending task, closed incompletely. -/
def sReapertura : Sistema :=
  ⟨⟨"P1", "finalizado", some 1, [], some 500000, true⟩, [tPendiente], [], []⟩

/-- A date map supplying the same due date to every task. -/
def fechaFija : Nat → String := fun _ => "2025-03-01"

/-- A second pending task, assigned to user 4. -/
def tPend2 : Tarea := ⟨2, "T2", "review", [4], none, none⟩

/-- A finished, incompletely closed project with two pending tasks. -/
def sReapertura2 : Sistema :=
  ⟨⟨"P11", "finalizado", some 1, [], some 500000, true⟩, [tPendiente, tPend2], [], []⟩

/-- A date map giving task 1 a valid ISO date and every other task a
non-blank string Django cannot parse as a date. -/
def fechasMixtas : Nat → String := fun n => if n = 1 then "2025-03-01" else "not-a-date"

/-- A freshly planned project with no tasks. -/
def sCE : Sistema := ⟨⟨"P2", "planificado", none, [], none, false⟩, [], [], []⟩

/-- Budget under-invoiced: budget 5000.00, one invoice of 3000.00. -/
def sIncompleto : Sistema :=
  ⟨⟨"P3", "en_progreso", some 1, [], some 500000, false⟩, [], [⟨300000⟩], []⟩

/-- Budget set to exactly 0.00 with a negative (credit-note) invoice. -/
def sPresupuestoCero : Sistema :=
  ⟨⟨"P4", "en_progreso", some 1, [], some 0, false⟩, [], [⟨-500⟩], []⟩

/-- A project whose `facturacion_incompleta` flag is already set and
whose budget is unset. -/
def sFlagPrevio : Sistema := ⟨⟨"P5", "finalizado", some 1, [], none, true⟩, [], [], []⟩

/-- A project with no budget and one invoice. -/
def sSinPresupuesto : Sistema :=
  ⟨⟨"P6", "en_progreso", some 2, [], none, false⟩, [], [⟨100⟩], []⟩

/-- A `todo` task assigned to user 2 only. -/
def tParaOtro : Tarea := ⟨2, "T5", "todo", [2], none, none⟩

/-- World around `tParaOtro`. -/
def sParaOtro : Sistema :=
  ⟨⟨"P7", "en_progreso", none, [], none, false⟩, [tParaOtro], [], []⟩

/-- User 2's own `todo` task in a project they belong to. -/
def sPropia : Sistema :=
  ⟨⟨"P8", "en_progreso", none, [2], none, false⟩, [⟨3, "T8", "todo", [2], none, none⟩], [], []⟩

/-- User 2's own task already `doing`. -/
def sEnCurso : Sistema :=
  ⟨⟨"P9", "en_progreso", none, [2], none, false⟩, [⟨4, "T9", "doing", [2], none, none⟩], [], []⟩

/-- A work-hour entry that was already approved by user 7. -/
def hDecidida : HoraTrabajo := ⟨2, "aprobada", some 150, some 7, some 1000⟩

/-- A task assigned to both user 1 and user 2. -/
def tCompartida : Tarea := ⟨6, "T7", "todo", [1, 2], none, none⟩

/-- A project whose only relation to user 3 is plain membership. -/
def sMiembroCambia : Sistema :=
  ⟨⟨"P10", "en_progreso", some 1, [3], none, false⟩, [⟨5, "T10", "todo", [], none, none⟩], [], []⟩

/-- Rounding a positive whole-minute interval to hundredths is positive:
one minute already rounds to 0.02 hours. -/
theorem horasRedondeadas_pos (m : Nat) (hm : 1 ≤ m) : 0 < horasRedondeadas m := by
  unfold horasRedondeadas
  have h1 : (1 : ℚ) ≤ (m : ℚ) := by exact_mod_cast hm
  rw [round_eq, Int.lt_iff_add_one_le, Int.le_floor]
  push_cast
  linarith

/-- Claim C5, corrected — counterexample: The claim lets an actor with
management permission start a `todo` task they are not assigned to.
In the source the `start` quick action checks only assignment
(views.py:841-853): a manager who is not assigned is rejected with the
403 "No estás asignado" response, not started. -/
theorem C5_counterexample :
    uGerente.canManageProyectos = true
    ∧ asignado_de uGerente.id tParaOtro = false
    ∧ tParaOtro.estado = "todo"
    ∧ tarea_cambiar_estado uGerente "start" "" sParaOtro 0 =
        Except.error (FalloOp.permissionError "No estás asignado a esta tarea.") :=
  ⟨rfl, rfl, rfl, rfl⟩

/-- Claim C5 (amended): For a task visible to the actor, `start` succeeds
iff the actor is assigned (member of `asignados` or the legacy
`asignado_a`) and the state is `todo` — management permission grants no
bypass.  On success the state becomes `doing` and the `asignados` set
collapses to the actor, with one audit event; an unassigned actor is
rejected with the 403 permission response; an assigned actor on a task
whose state is not `todo` gets the conflict response. -/
theorem C5_start (u : Usuario) (post : String) (s : Sistema) (i : Nat) (t : Tarea)
    (ht : s.tareas[i]? = some t) (hq : qs_permitido u s.proyecto = true) :
    (asignado_de u.id t = true → t.estado = "todo" →
        tarea_cambiar_estado u "start" post s i = Except.ok { s with
          tareas := s.tareas.set i { t with estado := "doing", asignados := [u.id] },
          historial := s.historial ++
            [⟨"estado_tarea", descCambioEstado t.titulo t.estado "doing", u.id⟩] })
    ∧ (asignado_de u.id t = false →
        tarea_cambiar_estado u "start" post s i =
          Except.error (FalloOp.permissionError "No estás asignado a esta tarea."))
    ∧ (asignado_de u.id t = true → t.estado ≠ "todo" →
        tarea_cambiar_estado u "start" post s i =
          Except.error (FalloOp.conflictError
            "Solo se puede empezar si está \x27Por hacer\x27.")) := by
  refine ⟨?_, ?_, ?_⟩ <;> intro h1 <;>
    first
      | (intro h2
         unfold tarea_cambiar_estado
         rw [ht]
         simp [hq, h1, h2])
      | (unfold tarea_cambiar_estado
         rw [ht]
         simp [hq, h1])

/-- Claim C5 — witness: User 2 starts their own pending task. -/
theorem C5_witness :
    tarea_cambiar_estado uDev "start" "" sPropia 0 = Except.ok { sPropia with
      tareas := sPropia.tareas.set 0
        { id := 3, titulo := "T8", estado := "doing", asignados := [uDev.id],
          asignado_a := none, vence_el := none },
      historial := sPropia.historial ++
        [⟨"estado_tarea", descCambioEstado "T8" "todo" "doing", uDev.id⟩] } :=
  (C5_start uDev "" sPropia 0 ⟨3, "T8", "todo", [2], none, none⟩ rfl rfl).1 rfl rfl

/-- Claim C6, corrected — counterexample: The claim says an
already-decided entry is never re-decided.  `horas_rechazar` has no
state guard (views.py:1286-1295): applied to an already-approved entry
it overwrites the state, the deciding actor and the timestamp. -/
theorem C6_counterexample :
    hDecidida.estado = "aprobada"
    ∧ horas_rechazar uEco 2000 hDecidida =
        Except.ok ⟨2, "rechazada", some 150, some uEco.id, some 2000⟩ :=
  ⟨rfl, rfl⟩

/-- Claim C6 (amended): `approve` and `reject` require only the
`can_manage_economia` permission; they unconditionally overwrite
`estado`, `aprobada_por` and `aprobada_en`, whatever the entry's
current state — so a decided entry can be re-decided. -/
theorem C6_horas_decision (u : Usuario) (ahora : Nat) (h : HoraTrabajo)
    (hp : u.canManageEconomia = true) :
    (horas_aprobar u ahora h = Except.ok { h with
      estado := "aprobada", aprobada_por := some u.id, aprobada_en := some ahora })
    ∧ (horas_rechazar u ahora h = Except.ok { h with
      estado := "rechazada", aprobada_por := some u.id, aprobada_en := some ahora }) := by
  unfold horas_aprobar horas_rechazar
  simp [hp]

/-- Claim C6 — witness: The economy user decides a freshly loaded entry. -/
theorem C6_witness :
    horas_aprobar uEco 1000 ⟨2, "cargada", some 150, none, none⟩ =
      Except.ok ⟨2, "aprobada", some 150, some uEco.id, some 1000⟩
    ∧ horas_rechazar uEco 1000 ⟨2, "cargada", some 150, none, none⟩ =
      Except.ok ⟨2, "rechazada", some 150, some uEco.id, some 1000⟩ :=
  C6_horas_decision uEco 1000 ⟨2, "cargada", some 150, none, none⟩ rfl

/-- Claim C7, confirmed: On a task assigned to `{a, b}`, `claim` by `a`
collapses the set to `{a}`; claiming again is a no-op success; a
subsequent claim by `b` fails with the conflict response, and in
general `claim` fails for any actor not currently in the assignee
set (views.py:604-623). -/
theorem C7_tomar_tarea (a b : Usuario) (t : Tarea)
    (hab : a.id ≠ b.id) (hset : t.asignados = [a.id, b.id]) :
    tomar_tarea a t = Except.ok { t with asignados := [a.id] }
    ∧ tomar_tarea a { t with asignados := [a.id] } =
        Except.ok { t with asignados := [a.id] }
    ∧ tomar_tarea b { t with asignados := [a.id] } =
        Except.error (FalloOp.conflictError "No estás asignado a esta tarea.")
    ∧ (∀ (u : Usuario) (t2 : Tarea), t2.asignados.contains u.id = false →
        tomar_tarea u t2 =
          Except.error (FalloOp.conflictError "No estás asignado a esta tarea.")) := by
  refine ⟨?_, ?_, ?_, ?_⟩
  · unfold tomar_tarea
    simp [hset]
  · unfold tomar_tarea
    simp
  · unfold tomar_tarea
    simp [List.contains, Ne.symm hab]
  · intro u t2 hu
    unfold tomar_tarea
    rw [if_pos (by rw [hu]; simp)]

/-- Claim C7 — witness: Users 1 and 2 share task `T7`; user 1 claims it. -/
theorem C7_witness :
    tomar_tarea uGerente tCompartida =
      Except.ok { tCompartida with asignados := [uGerente.id] }
    ∧ tomar_tarea uGerente { tCompartida with asignados := [uGerente.id] } =
      Except.ok { tCompartida with asignados := [uGerente.id] }
    ∧ tomar_tarea uDev { tCompartida with asignados := [uGerente.id] } =
      Except.error (FalloOp.conflictError "No estás asignado a esta tarea.") :=
  ⟨(C7_tomar_tarea uGerente uDev tCompartida (by decide) rfl).1,
   (C7_tomar_tarea uGerente uDev tCompartida (by decide) rfl).2.1,
   (C7_tomar_tarea uGerente uDev tCompartida (by decide) rfl).2.2.1⟩

/-- Claim C9, corrected — counterexample: The claim has a fallback in
which the duration is "supplied directly" when start/end are missing.
The `HoraTrabajoForm` requires both `inicio` and `fin` and has no
duration field (views.py:1051-1117): a submission with a directly
supplied positive duration but no start/end is rejected and nothing is
persisted. -/
theorem C9_counterexample :
    horas_nueva 1 none none (some 500) =
      Except.error (FalloOp.validationError "Inicio y fin son obligatorios.") :=
  rfl

/-- Claim C9 (amended): `submit` always requires both start and end
times; the duration is always derived from them.  With a valid strictly
increasing interval the entry is persisted in state `"cargada"` with a
strictly positive duration; an interval with `fin ≤ inicio` or with a
missing/unparseable bound is rejected with a validation error before
persistence (a directly posted duration is ignored in every case). -/
theorem C9_horas_nueva (usuarioId ini f : Nat) (hp : Option Int) :
    (ini < f →
      horas_nueva usuarioId (some ini) (some f) hp = Except.ok
        { usuario := usuarioId, estado := "cargada",
          horas := some (horasRedondeadas (f - ini)),
          aprobada_por := none, aprobada_en := none }
      ∧ 0 < horasRedondeadas (f - ini))
    ∧ (f ≤ ini →
      horas_nueva usuarioId (some ini) (some f) hp =
        Except.error (FalloOp.validationError
          "La hora de inicio debe ser anterior a la de fin."))
    ∧ (∀ o o2 : Option Nat, o = none ∨ o2 = none →
      horas_nueva usuarioId o o2 hp =
        Except.error (FalloOp.validationError "Inicio y fin son obligatorios.")) := by
  refine ⟨?_, ?_, ?_⟩
  · intro hlt
    have hnle : ¬ f ≤ ini := by omega
    exact ⟨by simp [horas_nueva, hnle], horasRedondeadas_pos (f - ini) (by omega)⟩
  · intro hle
    simp [horas_nueva, hle]
  · intro o o2 ho
    rcases o with _ | x <;> rcases o2 with _ | y
    · rfl
    · rfl
    · rfl
    · rcases ho with h | h <;> simp at h

/-- Claim C9 — witness: A 09:00-10:00 entry: one hour, 1.00 h, loaded. -/
theorem C9_witness :
    horas_nueva 2 (some 540) (some 600) none = Except.ok
      { usuario := 2, estado := "cargada", horas := some (horasRedondeadas 60),
        aprobada_por := none, aprobada_en := none }
    ∧ 0 < horasRedondeadas 60 :=
  (C9_horas_nueva 2 540 600 none).1 (by decide)

/-- Claim C10, confirmed: Whenever `start` is invoked on a task whose
state is not `todo`, or `finish` on one not `doing`, or either by an
actor not in the (effective) assignee set, `tarea_cambiar_estado` takes
a rejection path; no rejection path of the view performs any save, so
the task, its assignees and the project's history are untouched. -/
theorem C10_fallo_sin_efecto (u : Usuario) (action : String) (post : String)
    (s : Sistema) (i : Nat) (t : Tarea)
    (ht : s.tareas[i]? = some t)
    (ha : action = "start" ∨ action = "finish")
    (hfail : asignado_de u.id t = false
      ∨ (action = "start" ∧ t.estado ≠ "todo")
      ∨ (action = "finish" ∧ t.estado ≠ "doing")) :
    esError (tarea_cambiar_estado u action post s i) = true := by
  unfold tarea_cambiar_estado
  rw [ht]
  by_cases hq : qs_permitido u s.proyecto = true
  · rcases ha with ha | ha <;> subst ha <;>
      by_cases hA : asignado_de u.id t = true <;>
      rcases hfail with hf | ⟨hf1, hf2⟩ | ⟨hf1, hf2⟩ <;>
      simp_all [esError]
  · simp [hq, esError]

/-- Completion case of the save loop: when every pending task's date
parses, the loop runs to the end and updates exactly the pending
tasks. -/
theorem guardaVencimientos_completo (fechas : Nat → String) (ts : List Tarea)
    (h : ∀ t ∈ ts, pendiente t = true → (parseFecha (fechas t.id)).isSome = true) :
    guardaVencimientos fechas ts =
      (ts.map fun t => if pendiente t then { t with vence_el := some (fechas t.id) }
        else t, true) := by
  induction ts with
  | nil => rfl
  | cons t ts ih =>
    have ih2 := ih (fun t2 ht2 => h t2 (List.mem_cons_of_mem _ ht2))
    by_cases hp : pendiente t = true
    · have hps := h t (List.mem_cons_self _ _) hp
      simp [guardaVencimientos, hp, hps, ih2]
    · simp [guardaVencimientos, hp, ih2]

/-- Abort case of the save loop: when some pending task's (non-blank)
date does not parse, the table splits at the first such task: every
earlier pending task's new date is committed, that task and everything
after it are untouched, and the loop reports failure. -/
theorem guardaVencimientos_abortado (fechas : Nat → String) (ts : List Tarea)
    (h : ¬ ∀ t ∈ ts, pendiente t = true → (parseFecha (fechas t.id)).isSome = true) :
    ∃ pre bad post, ts = pre ++ bad :: post
      ∧ pendiente bad = true
      ∧ (parseFecha (fechas bad.id)).isSome = false
      ∧ (∀ t ∈ pre, pendiente t = true → (parseFecha (fechas t.id)).isSome = true)
      ∧ guardaVencimientos fechas ts =
          ((pre.map fun t => if pendiente t then { t with vence_el := some (fechas t.id) }
            else t) ++ bad :: post, false) := by
  induction ts with
  | nil => exact absurd (by simp) h
  | cons t ts ih =>
    by_cases hp : pendiente t = true
    · by_cases hps : (parseFecha (fechas t.id)).isSome = true
      · have h2 : ¬ ∀ t2 ∈ ts, pendiente t2 = true →
            (parseFecha (fechas t2.id)).isSome = true := by
          intro hall
          refine h ?_
          intro t2 ht2 hp2
          rcases List.mem_cons.mp ht2 with rfl | ht2
          · exact hps
          · exact hall t2 ht2 hp2
        obtain ⟨pre, bad, post, e1, e2, e3, e4, e5⟩ := ih h2
        refine ⟨t :: pre, bad, post, by simp [e1], e2, e3, ?_, ?_⟩
        · intro t2 ht2 hp2
          rcases List.mem_cons.mp ht2 with rfl | ht2
          · exact hps
          · exact e4 t2 ht2 hp2
        · simp [guardaVencimientos, hp, hps, e5]
      · refine ⟨[], t, ts, rfl, hp, by simpa using hps, by simp, ?_⟩
        simp [guardaVencimientos, hp, hps]
    · have h2 : ¬ ∀ t2 ∈ ts, pendiente t2 = true →
          (parseFecha (fechas t2.id)).isSome = true := by
        intro hall
        refine h ?_
        intro t2 ht2 hp2
        rcases List.mem_cons.mp ht2 with rfl | ht2
        · exact absurd hp2 hp
        · exact hall t2 ht2 hp2
      obtain ⟨pre, bad, post, e1, e2, e3, e4, e5⟩ := ih h2
      refine ⟨t :: pre, bad, post, by simp [e1], e2, e3, ?_, ?_⟩
      · intro t2 ht2 hp2
        rcases List.mem_cons.mp ht2 with rfl | ht2
        · exact absurd hp2 hp
        · exact e4 t2 ht2 hp2
      · simp [guardaVencimientos, hp, e5]

/-- Claim C1, corrected — counterexample: The claim says reopen is
all-or-nothing over the supplied date map.  Project `P11` has two
pending tasks, both with non-blank dates in the map; the second date is
not parseable as a date.  The un-transactioned save loop
(views.py:554-556) commits `T1`'s new due date, then dies on `T2`'s:
a *partial subset* of the claimed effects persists — one task dated,
the other not, the project still `finalizado` with
`facturacion_incompleta` still set, and no event written. -/
theorem C1_counterexample :
    ((sReapertura2.tareas.filter pendiente).any fun t => fechasMixtas t.id == "") = false
    ∧ proyecto_reabrir uGerente "resuming" fechasMixtas sReapertura2 =
        SalidaReabrir.excepcion ⟨sReapertura2.proyecto,
          [⟨1, "T1", "todo", [2], none, some "2025-03-01"⟩, tPend2], [], []⟩ :=
  ⟨rfl, rfl⟩

/-- Claim C1 (amended): For a visible project and a reopen POST with a
non-blank reason: if any pending task lacks a (non-blank) date, the
call fails with the validation error and — the rejection carrying the
untouched pre-state — nothing changes and no event is written; if every
pending task's date parses, the full effect happens atomically (each
pending task dated, project `planificado`, flag cleared, exactly one
`reapertura` event); but if all dates are non-blank and some pending
task's date is unparseable, the save loop dies at the first such task:
the pending tasks before it keep their newly committed due dates while
it, the later tasks, the project fields and the history are unchanged —
a partial subset, so the all-or-nothing guarantee fails.  (A blank
reason also fails with a validation error and changes nothing.) -/
theorem C1_reabrir_todo_o_nada
    (u : Usuario) (motivo : String) (fechas : Nat → String) (s : Sistema)
    (hq : qs_permitido u s.proyecto = true) (hm : motivo ≠ "") :
    (((s.tareas.filter pendiente).any fun t => fechas t.id == "") = true →
        proyecto_reabrir u motivo fechas s =
          SalidaReabrir.rechazo (FalloOp.validationError
            "Debés cargar fecha para todas las tareas pendientes.") s)
    ∧ (((s.tareas.filter pendiente).any fun t => fechas t.id == "") = false →
        (∀ t ∈ s.tareas, pendiente t = true → (parseFecha (fechas t.id)).isSome = true) →
        proyecto_reabrir u motivo fechas s = SalidaReabrir.exito { s with
          tareas := s.tareas.map fun t =>
            if pendiente t then { t with vence_el := some (fechas t.id) } else t,
          proyecto := { s.proyecto with
            estado := "planificado", facturacion_incompleta := false },
          historial := s.historial ++
            [⟨"reapertura",
              "Proyecto reabierto. Motivo: " ++ motivo ++ ". Tareas reabiertas: " ++
                toString (s.tareas.filter pendiente).length ++ ".", u.id⟩] })
    ∧ (((s.tareas.filter pendiente).any fun t => fechas t.id == "") = false →
        ¬ (∀ t ∈ s.tareas, pendiente t = true → (parseFecha (fechas t.id)).isSome = true) →
        ∃ pre bad post, s.tareas = pre ++ bad :: post
          ∧ pendiente bad = true
          ∧ (parseFecha (fechas bad.id)).isSome = false
          ∧ (∀ t ∈ pre, pendiente t = true → (parseFecha (fechas t.id)).isSome = true)
          ∧ proyecto_reabrir u motivo fechas s = SalidaReabrir.excepcion { s with
              tareas := (pre.map fun t =>
                if pendiente t then { t with vence_el := some (fechas t.id) } else t)
                ++ bad :: post }) := by
  refine ⟨?_, ?_, ?_⟩
  · intro hany
    unfold proyecto_reabrir
    simp [hq, hm, hany]
  · intro hnone hall
    unfold proyecto_reabrir
    rw [guardaVencimientos_completo fechas s.tareas hall]
    simp [hq, hm, hnone]
  · intro hnone hnall
    obtain ⟨pre, bad, post, e1, e2, e3, e4, e5⟩ :=
      guardaVencimientos_abortado fechas s.tareas hnall
    refine ⟨pre, bad, post, e1, e2, e3, e4, ?_⟩
    unfold proyecto_reabrir
    rw [e5]
    simp [hq, hm, hnone]

/-- Claim C1 — witness: Reopening `P1` with reason `resuming` and a
parseable date for its pending task succeeds with the full effect. -/
theorem C1_witness :
    proyecto_reabrir uGerente "resuming" fechaFija sReapertura =
      SalidaReabrir.exito { sReapertura with
        tareas := sReapertura.tareas.map fun t =>
          if pendiente t then { t with vence_el := some (fechaFija t.id) } else t,
        proyecto := { sReapertura.proyecto with
          estado := "planificado", facturacion_incompleta := false },
        historial := sReapertura.historial ++
          [⟨"reapertura",
            "Proyecto reabierto. Motivo: " ++ "resuming" ++ ". Tareas reabiertas: " ++
              toString (sReapertura.tareas.filter pendiente).length ++ ".",
            uGerente.id⟩] } :=
  (C1_reabrir_todo_o_nada uGerente "resuming" fechaFija sReapertura rfl
    (by decide)).2.1 rfl (by decide)

/-- Claim C2, corrected — counterexample: The blanket invariant "every
externally observable state change produces exactly one HistoryEvent"
fails: `proyecto_cambiar_estado` (views.py:306-326) persists a project
state change (`planificado` → `en_pausa`) and writes no event. -/
theorem C2_counterexample :
    proyecto_cambiar_estado "en_pausa" sCE =
      Except.ok ⟨⟨"P2", "en_pausa", none, [], none, false⟩, [], [], []⟩
    ∧ sCE.proyecto.estado = "planificado"
    ∧ (⟨⟨"P2", "en_pausa", none, [], none, false⟩, [], [], []⟩ : Sistema).historial
        = sCE.historial :=
  ⟨rfl, rfl, rfl⟩

/-- Claim C2 (amended): Every successful task `start`/`finish`/direct
`change_state`, `attempt_close`, `reopen` and `delete_task` appends
exactly one new HistoryEvent to the affected project's trail (a direct
change with an invalid target state is a no-op), and no modelled
operation ever removes events — a rejected reopen returns the untouched
pre-state and a reopen aborted mid-loop by an unparseable date also
appends nothing — but the direct project state change endpoint persists
a state change while appending none. -/
theorem C2_un_evento_por_cambio :
    (∀ (u : Usuario) (action post : String) (s : Sistema)
        (i : Nat) (s2 : Sistema),
        tarea_cambiar_estado u action post s i = Except.ok s2 →
        s2 = s ∨ ∃ e, s2.historial = s.historial ++ [e])
    ∧ (∀ (u : Usuario) (esPost : Bool) (motivo : String) (s s2 : Sistema),
        proyecto_cerrar u esPost motivo s = Except.ok s2 →
        ∃ e, s2.historial = s.historial ++ [e])
    ∧ (∀ (u : Usuario) (motivo : String) (fechas : Nat → String) (s s2 : Sistema),
        proyecto_reabrir u motivo fechas s = SalidaReabrir.exito s2 →
        ∃ e, s2.historial = s.historial ++ [e])
    ∧ (∀ (u : Usuario) (motivo : String) (fechas : Nat → String) (s : Sistema)
        (e : FalloOp) (s2 : Sistema),
        proyecto_reabrir u motivo fechas s = SalidaReabrir.rechazo e s2 →
        s2 = s)
    ∧ (∀ (u : Usuario) (motivo : String) (fechas : Nat → String) (s s2 : Sistema),
        proyecto_reabrir u motivo fechas s = SalidaReabrir.excepcion s2 →
        s2.historial = s.historial ∧ s2.proyecto = s.proyecto)
    ∧ (∀ (u : Usuario) (s : Sistema) (i : Nat) (s2 : Sistema),
        tarea_eliminar u s i = Except.ok s2 →
        ∃ e, s2.historial = s.historial ++ [e])
    ∧ (∀ (post : String) (s s2 : Sistema),
        proyecto_cambiar_estado post s = Except.ok s2 →
        s2.historial = s.historial ∧ s2.proyecto.estado = post) := by
  refine ⟨?_, ?_, ?_, ?_, ?_, ?_, ?_⟩
  · intro u action post s i s2 h
    unfold tarea_cambiar_estado at h
    split at h
    · exact Except.noConfusion h
    · split_ifs at h <;>
        first
          | exact Except.noConfusion h
          | (injection h with h; subst h; exact Or.inr ⟨_, rfl⟩)
          | (injection h with h; subst h; exact Or.inl rfl)
  · intro u esPost motivo s s2 h
    unfold proyecto_cerrar at h
    split_ifs at h <;>
      first
        | exact Except.noConfusion h
        | (injection h with h; subst h; exact ⟨_, rfl⟩)
  · intro u motivo fechas s s2 h
    unfold proyecto_reabrir at h
    split_ifs at h <;>
      first
        | exact SalidaReabrir.noConfusion h
        | (injection h with h; subst h; exact ⟨_, rfl⟩)
  · intro u motivo fechas s e s2 h
    unfold proyecto_reabrir at h
    split_ifs at h <;>
      first
        | exact SalidaReabrir.noConfusion h
        | (injection h with h1 h2; exact h2.symm)
  · intro u motivo fechas s s2 h
    unfold proyecto_reabrir at h
    split_ifs at h <;>
      first
        | exact SalidaReabrir.noConfusion h
        | (injection h with h; subst h; exact ⟨rfl, rfl⟩)
  · intro u s i s2 h
    unfold tarea_eliminar at h
    split at h
    · exact Except.noConfusion h
    · split_ifs at h <;>
        first
          | exact Except.noConfusion h
          | (injection h with h; subst h; exact ⟨_, rfl⟩)
  · intro post s s2 h
    unfold proyecto_cambiar_estado at h
    split_ifs at h <;>
      first
        | exact Except.noConfusion h
        | (injection h with h; subst h; exact ⟨rfl, rfl⟩)

/-- Claim C2 — witness: The deviating endpoint at work: changing `P2` to
`en_pausa` succeeds, leaves the trail untouched and sets the state. -/
theorem C2_witness :
    (⟨⟨"P2", "en_pausa", none, [], none, false⟩, [], [], []⟩ : Sistema).historial
      = sCE.historial
    ∧ (⟨⟨"P2", "en_pausa", none, [], none, false⟩, [], [], []⟩ : Sistema).proyecto.estado
      = "en_pausa" :=
  C2_un_evento_por_cambio.2.2.2.2.2.2 "en_pausa" sCE
    ⟨⟨"P2", "en_pausa", none, [], none, false⟩, [], [], []⟩ rfl

/-- Claim C3, corrected — counterexample: The claim's premise is
"`budget_total` is set and `invoiced_total < budget_total`".  The
source tests Python truthiness (`presupuesto_total or 0` followed by
`if presupuesto`), so a budget set to exactly 0.00 with a negative
(credit-note) invoice total takes the *complete* closure branch: the
call with a missing reason succeeds instead of failing. -/
theorem C3_counterexample :
    sPresupuestoCero.proyecto.presupuesto_total = some 0
    ∧ facturadoTotal sPresupuestoCero < 0
    ∧ proyecto_cerrar uGerente true "" sPresupuestoCero =
        Except.ok ⟨⟨"P4", "finalizado", some 1, [], some 0, false⟩, [], [⟨-500⟩],
          [⟨"cierre", "Proyecto marcado como finalizado.", uGerente.id⟩]⟩ :=
  ⟨rfl, by decide, rfl⟩

/-- Claim C3 (amended): For a visible project whose budget is set and
*non-zero*, with the invoiced total (all invoice states) strictly below
it: a POST with a non-blank reason sets `facturacion_incompleta`,
finishes the project and appends one `cierre_incompleto` event whose
description contains the reason; a missing/blank reason (or a GET)
fails with a validation error and changes nothing. -/
theorem C3_cierre_incompleto
    (u : Usuario) (esPost : Bool) (motivo : String) (s : Sistema) (b : Int)
    (hq : qs_permitido u s.proyecto = true)
    (hb : s.proyecto.presupuesto_total = some b) (hb0 : b ≠ 0)
    (hlt : facturadoTotal s < b) :
    (esPost ∧ motivo ≠ "" →
        proyecto_cerrar u esPost motivo s = Except.ok { s with
          proyecto := { s.proyecto with
            facturacion_incompleta := true, estado := "finalizado" },
          historial := s.historial ++
            [⟨"cierre_incompleto",
              "Cierre con facturación incompleta. Motivo: " ++ motivo, u.id⟩] })
    ∧ (¬ (esPost ∧ motivo ≠ "") →
        proyecto_cerrar u esPost motivo s =
          Except.error (FalloOp.validationError
            "Motivo del cierre incompleto requerido.")) := by
  have hcond : s.proyecto.presupuesto_total.getD 0 ≠ 0 ∧
      facturadoTotal s < s.proyecto.presupuesto_total.getD 0 := by
    rw [hb]; exact ⟨hb0, hlt⟩
  constructor
  · intro hok
    unfold proyecto_cerrar
    rw [if_neg (by simp [hq]), if_pos hcond, if_pos hok]
  · intro hno
    unfold proyecto_cerrar
    rw [if_neg (by simp [hq]), if_pos hcond, if_neg hno]

/-- Claim C3 — witness: Project `P3` (budget 5000.00, invoiced 3000.00)
closed with reason "client delayed". -/
theorem C3_witness :
    proyecto_cerrar uGerente true "client delayed" sIncompleto =
      Except.ok { sIncompleto with
        proyecto := { sIncompleto.proyecto with
          facturacion_incompleta := true, estado := "finalizado" },
        historial := sIncompleto.historial ++
          [⟨"cierre_incompleto",
            "Cierre con facturación incompleta. Motivo: " ++ "client delayed",
            uGerente.id⟩] } :=
  (C3_cierre_incompleto uGerente true "client delayed" sIncompleto 500000 rfl rfl
    (by decide) (by decide)).1 ⟨rfl, by decide⟩

/-- Claim C4, corrected — counterexample: The claim says complete closure
"leaves invoicing_incomplete = false".  The complete branch saves only
`update_fields=["estado", "actualizado_en"]` (views.py:527): closing a
project whose flag is already `true` (budget unset here) succeeds and
leaves the flag `true`. -/
theorem C4_counterexample :
    sFlagPrevio.proyecto.presupuesto_total = none
    ∧ sFlagPrevio.proyecto.facturacion_incompleta = true
    ∧ (proyecto_cerrar uGerente false "" sFlagPrevio).map
        (fun s => (s.proyecto.estado, s.proyecto.facturacion_incompleta))
      = Except.ok ("finalizado", true) :=
  ⟨rfl, rfl, rfl⟩

/-- Claim C4 (amended): For a visible project outside the incomplete
branch (budget unset, zero, or invoiced total not below it),
`attempt_close` always succeeds — any method, no reason required — sets
the state to `finalizado`, appends one `cierre` event, and leaves
`facturacion_incompleta` *unchanged* (hence `false` only if it already
was `false`). -/
theorem C4_cierre_completo
    (u : Usuario) (esPost : Bool) (motivo : String) (s : Sistema)
    (hq : qs_permitido u s.proyecto = true)
    (hc : ¬ (s.proyecto.presupuesto_total.getD 0 ≠ 0 ∧
             facturadoTotal s < s.proyecto.presupuesto_total.getD 0)) :
    proyecto_cerrar u esPost motivo s = Except.ok { s with
      proyecto := { s.proyecto with estado := "finalizado" },
      historial := s.historial ++
        [⟨"cierre", "Proyecto marcado como finalizado.", u.id⟩] } := by
  unfold proyecto_cerrar
  rw [if_neg (by simp [hq]), if_neg hc]

/-- Claim C4 — witness: Closing a budgetless project with no reason. -/
theorem C4_witness :
    proyecto_cerrar uGerente false "" sSinPresupuesto =
      Except.ok { sSinPresupuesto with
        proyecto := { sSinPresupuesto.proyecto with estado := "finalizado" },
        historial := sSinPresupuesto.historial ++
          [⟨"cierre", "Proyecto marcado como finalizado.", uGerente.id⟩] } :=
  C4_cierre_completo uGerente false "" sSinPresupuesto rfl (by decide)

/-- Claim C8, corrected — counterexample: The claim allows the direct
`change_state` only to management or the responsible owner.  The only
gate in the source is `_qs_permitidos` (views.py:73-78), which also
admits plain project *members*: user 3, a mere member, changes `T10` to
`done` successfully, with the audit event written. -/
theorem C8_counterexample :
    uMiembro.canManageProyectos = false
    ∧ sMiembroCambia.proyecto.responsable = some 1
    ∧ uMiembro.id = 3
    ∧ tarea_cambiar_estado uMiembro "" "done" sMiembroCambia 0 =
        Except.ok ⟨sMiembroCambia.proyecto, [⟨5, "T10", "done", [], none, none⟩], [],
          [⟨"estado_tarea", descCambioEstado "T10" "todo" "done", uMiembro.id⟩]⟩ :=
  ⟨rfl, rfl, rfl, rfl⟩

/-- Claim C8 (amended): The direct `change_state` succeeds for every
actor passing the `_qs_permitidos` gate — manager, responsible owner
*or any project member* — moving the task to any of the four valid
states and appending exactly one audit event recording old → new; an
actor failing the gate gets the 404 (not-found) rejection, with the
task unchanged. -/
theorem C8_cambio_directo
    (u : Usuario) (s : Sistema) (i : Nat) (t : Tarea) (nuevo : String)
    (ht : s.tareas[i]? = some t)
    (hv : tareaEstados.contains nuevo = true) :
    (qs_permitido u s.proyecto = true →
        tarea_cambiar_estado u "" nuevo s i = Except.ok { s with
          tareas := s.tareas.set i { t with estado := nuevo },
          historial := s.historial ++
            [⟨"estado_tarea", descCambioEstado t.titulo t.estado nuevo, u.id⟩] })
    ∧ (qs_permitido u s.proyecto = false →
        tarea_cambiar_estado u "" nuevo s i =
          Except.error FalloOp.notFoundError) := by
  constructor
  · intro hq
    unfold tarea_cambiar_estado
    rw [ht]
    have hv2 : nuevo ∈ tareaEstados := by simpa using hv
    simp [hq, hv2]
  · intro hq
    unfold tarea_cambiar_estado
    rw [ht]
    simp [hq]

/-- Claim C8 — witness: The manager moves `T10` straight to `review`. -/
theorem C8_witness :
    tarea_cambiar_estado uGerente "" "review" sMiembroCambia 0 =
      Except.ok { sMiembroCambia with
        tareas := sMiembroCambia.tareas.set 0
          { id := 5, titulo := "T10", estado := "review", asignados := [],
            asignado_a := none, vence_el := none },
        historial := sMiembroCambia.historial ++
          [⟨"estado_tarea", descCambioEstado "T10" "todo" "review", uGerente.id⟩] } :=
  (C8_cambio_directo uGerente sMiembroCambia 0 ⟨5, "T10", "todo", [], none, none⟩
    "review" rfl rfl).1 rfl

/-- Claim C10 — witness: Starting an already started task fails. -/
theorem C10_witness :
    esError (tarea_cambiar_estado uDev "start" "" sEnCurso 0) = true :=
  C10_fallo_sin_efecto uDev "start" "" sEnCurso 0 ⟨4, "T9", "doing", [2], none, none⟩
    rfl (Or.inl rfl) (Or.inr (Or.inl ⟨rfl, by decide⟩))

end D3S
